import Mathlib

/-! Shallow embedding of the Cloudflare Worker screenshot service (src/index.js):
the URL pattern match (with JavaScript backtracking-regex semantics), parameter
resolution with defaults, the Browser Durable Object fetch/alarm lifecycle, and
the cache-aside gateway handler. -/

namespace Screenshot

/-! ## Regex machinery

The source matches request URLs against a compound regular expression built by
`regexMerge` (imported from `./support`) from six sub-patterns.  The matcher
below implements that combined anchored pattern with JavaScript semantics:
choice points (greedy and lazy repetitions, optional groups, alternation) are
enumerated in preference order and the first alternative whose continuation
matches the rest of the pattern wins. -/

/-- JavaScript word character: the class [A-Za-z0-9_] denoted by a backslash-w
(no unicode flag on the source pattern). -/
def isWordChar (c : Char) : Bool :=
  c.isAlphanum || c == '_'

/-- The character class of the base segment: word characters, dot and slash. -/
def baseChar (c : Char) : Bool :=
  isWordChar c || c == '.' || c == '/'

/-- The JavaScript dot: any character except line terminators. -/
def dotChar (c : Char) : Bool :=
  c != '\n' && c != '\r'

/-- Length of the maximal prefix of `s` whose characters all satisfy `p`. -/
def prefRunLen (p : Char → Bool) : List Char → Nat
  | [] => 0
  | c :: r => if p c then prefRunLen p r + 1 else 0

/-- The splits `(s.take k, s.drop k)` for `k` from the maximal `p`-prefix length
down to `minLen`: the preference order of a greedy repetition of a
one-character class. -/
def greedySplits (p : Char → Bool) (minLen : Nat) (s : List Char) :
    List (List Char × List Char) :=
  ((List.range (prefRunLen p s + 1)).reverse.filter (fun k => decide (minLen ≤ k))).map
    (fun k => (s.take k, s.drop k))

/-- The same splits in ascending length order: a lazy repetition. -/
def lazySplits (p : Char → Bool) (s : List Char) : List (List Char × List Char) :=
  (List.range (prefRunLen p s + 1)).map (fun k => (s.take k, s.drop k))

/-- Consume a literal character sequence from the front of the input. -/
def consumeLit : List Char → List Char → Option (List Char)
  | [], s => some s
  | c :: l, d :: s => if c == d then consumeLit l s else none
  | _ :: _, [] => none

/-- The named capture groups of the pattern, as produced by a successful match:
an absent optional group is `none`. -/
structure Settings where
  base : String
  width : Option String
  height : Option String
  path : String
  scale : Option String
  format : Option String
  query : Option String
deriving DecidableEq, Repr

/-- Alternatives, in preference order, for the optional plural `s?` after the
literal `screenshot` (greedy: consuming the `s` is preferred). -/
def optPluralS (s : List Char) : List (List Char) :=
  (match s with
   | 's' :: r => [r]
   | _ => []) ++ [s]

/-- Alternatives, in preference order, for the optional dimension group
`(?:/(?<width>[0-9]+)x(?<height>[0-9]+))?`: present first (with greedy digit
runs, longest first), then absent. -/
def dimAlts (s : List Char) : List (Option (String × String) × List Char) :=
  (match s with
   | '/' :: r =>
     (greedySplits Char.isDigit 1 r).flatMap (fun w =>
       match w.2 with
       | 'x' :: r2 =>
         (greedySplits Char.isDigit 1 r2).map (fun h =>
           (some (String.mk w.1, String.mk h.1), h.2))
       | _ => [])
   | _ => []) ++ [(none, s)]

/-- Alternatives for the required lazy path group `(?<path>/.*?)`: a slash
followed by a lazy run of dot-characters, shortest first. -/
def pathAlts (s : List Char) : List (String × List Char) :=
  match s with
  | '/' :: r => (lazySplits dotChar r).map (fun p => (String.mk ('/' :: p.1), p.2))
  | _ => []

/-- Alternatives for the optional scale group `(?:@(?<scale>[2-4])x)?`. -/
def scaleAlts (s : List Char) : List (Option String × List Char) :=
  (match s with
   | '@' :: c :: 'x' :: r =>
     if c == '2' || c == '3' || c == '4' then [(some (String.mk [c]), r)] else []
   | _ => []) ++ [(none, s)]

/-- Alternatives for the optional format group `(?:.(?<format>(pdf|png)))?`,
with the alternation tried left to right. -/
def formatAlts (s : List Char) : List (Option String × List Char) :=
  (match s with
   | '.' :: r =>
     (match consumeLit ['p', 'd', 'f'] r with
      | some r2 => [(some "pdf", r2)]
      | none => []) ++
     (match consumeLit ['p', 'n', 'g'] r with
      | some r2 => [(some "png", r2)]
      | none => [])
   | _ => []) ++ [(none, s)]

/-- Alternatives for the optional trailing query group `(?<query>\x3f.*)?`:
the capture keeps the leading question mark. -/
def queryAlts (s : List Char) : List (Option String × List Char) :=
  (match s with
   | '?' :: r => (greedySplits dotChar 0 r).map (fun q => (some (String.mk ('?' :: q.1)), q.2))
   | _ => []) ++ [(none, s)]

def httpsLit : List Char := "https://".data

def screenshotLit : List Char := "/screenshot".data

/-- Modelled from the spec: `regexMerge` (imported from `./support`, a file of
this repository absent from the sources) combines the six sub-patterns of
`pattern` left to right into one regular expression anchored at both ends.
This matcher runs that combined pattern: required base group (the literal
`https://` then a greedy run of base characters), the literal `/screenshot`
with optional plural `s`, optional dimensions, lazy path, optional scale,
optional format, optional query, end of input.  Each choice point continues
through the whole remainder of the pattern and the first full match wins,
exactly as a backtracking regex engine does. -/
def matchPattern (s : List Char) : Option Settings :=
  (consumeLit httpsLit s).bind (fun s1 =>
  (greedySplits baseChar 1 s1).findSome? (fun b =>
  (consumeLit screenshotLit b.2).bind (fun s2 =>
  (optPluralS s2).findSome? (fun s3 =>
  (dimAlts s3).findSome? (fun d =>
  (pathAlts d.2).findSome? (fun p =>
  (scaleAlts p.2).findSome? (fun sc =>
  (formatAlts sc.2).findSome? (fun fm =>
  (queryAlts fm.2).findSome? (fun q =>
  if q.2 = [] then
    some ⟨String.mk (httpsLit ++ b.1), (d.1).map Prod.fst, (d.1).map Prod.snd,
          p.1, sc.1, fm.1, q.1⟩
  else none)))))))))

/-! ## Parameter resolution (lines 33-70 of src/index.js) -/

/-- The `defaults` object of the source. -/
structure DefaultsT where
  format : String
  width : Nat
  height : Nat
  maxage : Nat
  scale : Nat
deriving DecidableEq, Repr

def defaults : DefaultsT :=
  { format := "png", width := 1200, height := 630, maxage := 60 * 60 * 24 * 7, scale := 1 }

def KEEP_BROWSER_ALIVE_IN_SECONDS : Nat := 60

/-- The worker environment bindings the embedded code reads: `none` models an
unset binding (JavaScript `undefined`). -/
structure Env where
  QUERY_PARAMS : Option String
  CF_ACCESS_CLIENT_ID : Option String
  CF_ACCESS_CLIENT_SECRET : Option String
deriving DecidableEq, Repr

/-- JavaScript truthiness of a string: only the empty string is falsy. -/
def jsTruthyStr (s : String) : Bool := s != ""

/-- JavaScript truthiness of a possibly-undefined string binding. -/
def jsTruthyOpt : Option String → Bool
  | none => false
  | some s => jsTruthyStr s

/-- A JavaScript array object is truthy even when it is empty.  The source
tests `params ? ... : null` on an array value, so the test always takes the
first branch. -/
def jsArrayTruthy (_ : List String) : Bool := true

/-- JavaScript `String.prototype.split` on the ampersand separator: splitting
the empty string yields one empty field. -/
def splitOnAmp : List Char → List (List Char)
  | [] => [[]]
  | c :: r =>
    if c == '&' then [] :: splitOnAmp r
    else
      match splitOnAmp r with
      | [] => [[c]]
      | g :: gs => (c :: g) :: gs

/-- `replace(/^\x3f/, "")`: drop one leading question mark if present. -/
def dropLeadQ : List Char → List Char
  | '?' :: r => r
  | s => s

/-- `s.replace(/^\x3f/, "").split("&")` from lines 64-65 of the source. -/
def splitParams (s : String) : List String :=
  (splitOnAmp (dropLeadQ s.data)).map String.mk

/-- `parseInt` restricted to the decimal digit strings the pattern captures. -/
def digitsToNat (s : List Char) : Nat :=
  s.foldl (fun n c => n * 10 + (c.toNat - '0'.toNat)) 0

/-- The resolved per-request rendering settings: the destructured object of
line 54 plus the reconstructed target `url` and the parameter list. -/
structure RenderConfig where
  base : String
  path : String
  url : String
  width : Nat
  height : Nat
  scale : Nat
  format : String
  maxage : Nat
  params : List String
deriving DecidableEq, Repr

/-- Lines 54-70 of the source: merge the captured groups with the defaults
(`format`/`width`/`height`/`scale` fall back explicitly, `maxage` has no
capture group so it always keeps its default), assemble the parameter list
from the captured query string and the operator-configured `QUERY_PARAMS`
binding, and rebuild the target URL from base, path and joined parameters. -/
def resolveSettings (env : Env) (s : Settings) : RenderConfig :=
  let format := (s.format).getD defaults.format
  let width := match s.width with
    | some w => digitsToNat w.data
    | none => defaults.width
  let height := match s.height with
    | some h => digitsToNat h.data
    | none => defaults.height
  let scale := match s.scale with
    | some c => digitsToNat c.data
    | none => defaults.scale
  let params :=
    (match s.query with
     | some q => if jsTruthyStr q then splitParams q else []
     | none => []) ++
    (if jsTruthyOpt env.QUERY_PARAMS then splitParams (env.QUERY_PARAMS.getD "") else [])
  let query : Option String :=
    if jsArrayTruthy params then some ("?" ++ String.intercalate "&" params) else none
  let url := String.join (([some s.base, some s.path, query].filterMap id).filter jsTruthyStr)
  ⟨s.base, s.path, url, width, height, scale, format, defaults.maxage, params⟩

/-- Line 52 followed by lines 54-70: match the request URL against the pattern
and resolve the settings.  `none` models the thrown TypeError when `match`
returns `null` and the source reads `.groups` on it. -/
def buildConfig (env : Env) (reqUrl : String) : Option RenderConfig :=
  (matchPattern reqUrl.data).map (resolveSettings env)

/-! ## The Browser Durable Object (lines 43-151 of src/index.js)

The per-object state is `keptAliveInSeconds`, the `this.browser` field and the
single storage alarm slot.  `browser = none` models the field never assigned;
`some true` a connected engine handle; `some false` a handle whose connection
is gone (after `browser.close()` or a dropped session).  External effects are
recorded as an event trace; fallible collaborator calls (engine launch,
navigation, capture) are driven by a `Faults` scenario so that every exit path
of the source is a value of the embedding. -/

/-- The mutable fields of the `Browser` Durable Object together with its
storage alarm slot. -/
structure DOState where
  keptAliveInSeconds : Nat
  browser : Option Bool
  alarmPending : Bool
deriving DecidableEq, Repr

/-- Which collaborator calls fail during one request: engine launch (line 77),
navigation (line 99), capture (lines 101-106). -/
structure Faults where
  launchFails : Bool
  gotoFails : Bool
  captureFails : Bool
deriving DecidableEq, Repr

/-- Observable external effects of one request, in program order. -/
inductive Ev where
  | launch
  | setHeaders
  | setViewport
  | goto
  | capturePdf
  | captureShot
  | pageClose
  | contextClose
  | setAlarm
  | browserClose
deriving DecidableEq, Repr

/-- The successful response built at lines 124-130 (the `Expires` header is
`Date.now()`-dependent and carries the same `maxage` information). -/
structure Response where
  contentType : String
  cacheControl : String
  url : String
  width : Nat
  height : Nat
  scale : Nat
deriving DecidableEq, Repr

def mkResponse (cfg : RenderConfig) : Response :=
  ⟨if cfg.format == "pdf" then "application/pdf" else "image/" ++ cfg.format,
   "public, max-age=" ++ toString cfg.maxage,
   cfg.url, cfg.width, cfg.height, cfg.scale⟩

/-- The errors a `Browser.fetch` call can propagate: `nullMatch` is the
TypeError from reading `.groups` of a failed match (line 52); `noBrowser` the
TypeError from calling `createIncognitoBrowserContext` on the never-assigned
`this.browser` after a swallowed launch failure (line 86); `disconnected` the
engine rejecting a call on a dead handle; `gotoFailed` and `captureFailed` the
rejections of navigation and capture. -/
inductive FetchErr where
  | nullMatch
  | noBrowser
  | disconnected
  | gotoFailed
  | captureFailed
deriving DecidableEq, Repr

instance {e a : Type} [DecidableEq e] [DecidableEq a] : DecidableEq (Except e a) := fun x y =>
  match x, y with
  | Except.error u, Except.error v => decidable_of_iff (u = v) (by simp)
  | Except.error _, Except.ok _ => isFalse (fun h => Except.noConfusion h)
  | Except.ok _, Except.error _ => isFalse (fun h => Except.noConfusion h)
  | Except.ok u, Except.ok v => decidable_of_iff (u = v) (by simp)

namespace Browser

/-- Lines 72-81: reuse the handle when connected, otherwise launch; a launch
failure is caught and only logged, leaving `this.browser` unchanged. -/
def launchStep (f : Faults) (st : DOState) : DOState × List Ev :=
  match st.browser with
  | some true => (st, [])
  | _ =>
    if f.launchFails then (st, [])
    else ({ st with browser := some true }, [Ev.launch])

/-- Lines 51-131: the `Browser.fetch` request handler.  Returns the outcome
(a response or the propagated error), the state of the object afterwards and
the trace of external effects. -/
def fetch (env : Env) (f : Faults) (st : DOState) (reqUrl : String) :
    Except FetchErr Response × DOState × List Ev :=
  match buildConfig env reqUrl with
  | none => (Except.error FetchErr.nullMatch, st, [])
  | some cfg =>
    match launchStep f st with
    | (st1, ev1) =>
      let st2 : DOState := { st1 with keptAliveInSeconds := 0 }
      match st2.browser with
      | none => (Except.error FetchErr.noBrowser, st2, ev1)
      | some false => (Except.error FetchErr.disconnected, st2, ev1)
      | some true =>
        let evH : List Ev :=
          if jsTruthyOpt env.CF_ACCESS_CLIENT_ID && jsTruthyOpt env.CF_ACCESS_CLIENT_SECRET
          then [Ev.setHeaders] else []
        let evs2 : List Ev := ev1 ++ evH ++ [Ev.setViewport, Ev.goto]
        if f.gotoFails then (Except.error FetchErr.gotoFailed, st2, evs2)
        else
          let evCap : Ev := if cfg.format == "pdf" then Ev.capturePdf else Ev.captureShot
          if f.captureFails then (Except.error FetchErr.captureFailed, st2, evs2 ++ [evCap])
          else
            let st3 : DOState := { st2 with keptAliveInSeconds := 0 }
            let st4 : DOState := if st3.alarmPending then st3 else { st3 with alarmPending := true }
            let evA : List Ev := if st3.alarmPending then [] else [Ev.setAlarm]
            (Except.ok (mkResponse cfg), st4,
             evs2 ++ [evCap, Ev.pageClose, Ev.contextClose] ++ evA)

/-- Lines 133-150: the alarm handler.  Adds 10 to `keptAliveInSeconds`; below
the budget it sets the alarm again 10 seconds out, otherwise it closes the
engine handle (when one was assigned) and sets no further alarm. -/
def alarm (st : DOState) : DOState × List Ev :=
  let ka := st.keptAliveInSeconds + 10
  if ka < KEEP_BROWSER_ALIVE_IN_SECONDS then
    ({ st with keptAliveInSeconds := ka, alarmPending := true }, [Ev.setAlarm])
  else
    match st.browser with
    | some _ =>
      ({ st with keptAliveInSeconds := ka, alarmPending := false, browser := some false },
       [Ev.browserClose])
    | none => ({ st with keptAliveInSeconds := ka, alarmPending := false }, [])

end Browser

/-! ## The cache-aside gateway (lines 4-22 of src/index.js) -/

/-- The outcome of one gateway `fetch`: the response or propagated error, the
cache afterwards, the Durable Object state afterwards, whether the Browser
object was invoked at all, and its effect trace. -/
structure GwResult where
  response : Except FetchErr Response
  cache : List (String × Response)
  doState : DOState
  sessionInvoked : Bool
  evs : List Ev
deriving DecidableEq, Repr

/-- `caches.default.match(request.url)`: exact-key lookup. -/
def cacheMatch (cache : List (String × Response)) (key : String) : Option Response :=
  (cache.find? (fun p => p.fst == key)).map Prod.snd

/-- Lines 5-21: the exported `fetch` handler.  On a cache hit the stored
response is returned as is; on a miss the Browser object is invoked, and only
a resolved (successful) response is written into the cache before being
returned — a rejection propagates past the `cache.put`. -/
def fetch (cache : List (String × Response)) (env : Env) (f : Faults) (st : DOState)
    (reqUrl : String) : GwResult :=
  match cacheMatch cache reqUrl with
  | some r => ⟨Except.ok r, cache, st, false, []⟩
  | none =>
    match Browser.fetch env f st reqUrl with
    | (Except.error e, st2, evs) => ⟨Except.error e, cache, st2, true, evs⟩
    | (Except.ok r, st2, evs) => ⟨Except.ok r, (reqUrl, r) :: cache, st2, true, evs⟩

/-! ## Concrete fixtures -/

def env0 : Env := ⟨none, none, none⟩

def noFaults : Faults := ⟨false, false, false⟩

def st0 : DOState := ⟨0, none, false⟩

/-- A state with a connected engine handle and no pending alarm. -/
def stConn : DOState := ⟨0, some true, false⟩

def exUrl : String := "https://example.com/screenshot/600x400/foo/bar@2x.pdf?x=1"

def exUrl2 : String := "https://example.com/screenshots/bar"

def badUrl : String := "https://example.com/notscreenshot/bar"

/-- The response `Browser.fetch` builds for `exUrl` from a fresh state. -/
def respEx : Response :=
  ⟨"application/pdf", "public, max-age=604800", "https://example.com/foo/bar?x=1", 600, 400, 2⟩

/-- The effect trace of `Browser.fetch env0 noFaults st0 exUrl`. -/
def evsEx : List Ev :=
  [Ev.launch, Ev.setViewport, Ev.goto, Ev.capturePdf, Ev.pageClose, Ev.contextClose, Ev.setAlarm]

/-- An environment with both forwarded-authentication bindings configured. -/
def envAuth : Env := ⟨none, some "id", some "secret"⟩

/-- The effect trace of `Browser.fetch envAuth noFaults st0 exUrl`. -/
def evsAuth : List Ev :=
  [Ev.launch, Ev.setHeaders, Ev.setViewport, Ev.goto, Ev.capturePdf, Ev.pageClose,
   Ev.contextClose, Ev.setAlarm]

/-- A plain raster response used to pre-populate the cache. -/
def respPng : Response :=
  ⟨"image/png", "public, max-age=604800", "https://example.com/bar?", 1200, 630, 1⟩

/-! ## Helper lemmas -/

/-- Membership in an if-then-else of lists, split by the condition. -/
theorem mem_ite_iff {α : Type} {c : Prop} [Decidable c] {x : α} {l1 l2 : List α} :
    (x ∈ (if c then l1 else l2)) ↔ ((c ∧ x ∈ l1) ∨ (¬ c ∧ x ∈ l2)) := by
  split <;> simp_all

/-- Characterization of every successful `Browser.fetch` run: the request
parsed, neither navigation nor capture failed, the returned response is built
from the parsed settings, the object ends with `keptAliveInSeconds = 0`, a
connected handle and a pending alarm, and the effect trace is launch (only
when the handle was not already connected), optional auth headers, viewport,
navigation, capture, page close, context close, and an alarm set only when
none was pending. -/
theorem Browser.fetch_ok (env : Env) (f : Faults) (st : DOState) (reqUrl : String)
    (r : Response) (st2 : DOState) (evs : List Ev)
    (h : Browser.fetch env f st reqUrl = (Except.ok r, st2, evs)) :
    ∃ cfg, buildConfig env reqUrl = some cfg ∧
      f.gotoFails = false ∧ f.captureFails = false ∧
      r = mkResponse cfg ∧
      st2 = ⟨0, some true, true⟩ ∧
      evs = (if st.browser = some true then ([] : List Ev) else [Ev.launch]) ++
            (if jsTruthyOpt env.CF_ACCESS_CLIENT_ID && jsTruthyOpt env.CF_ACCESS_CLIENT_SECRET
             then [Ev.setHeaders] else []) ++
            [Ev.setViewport, Ev.goto,
             (if cfg.format == "pdf" then Ev.capturePdf else Ev.captureShot),
             Ev.pageClose, Ev.contextClose] ++
            (if st.alarmPending then [] else [Ev.setAlarm]) := by
  unfold Browser.fetch at h
  cases hb : buildConfig env reqUrl with
  | none => rw [hb] at h; exact absurd h (by simp)
  | some cfg =>
    rw [hb] at h
    refine ⟨cfg, rfl, ?_⟩
    unfold Browser.launchStep at h
    obtain ⟨ka, br, ap⟩ := st
    obtain ⟨lf, gf, cf⟩ := f
    rcases br with _ | (_ | _) <;> cases lf <;> cases gf <;> cases cf <;> cases ap <;> simp_all

/-- On every failing `Browser.fetch` run, neither the page nor the context is
closed: the source has no try/finally around navigation and capture. -/
theorem Browser.fetch_err (env : Env) (f : Faults) (st : DOState) (reqUrl : String)
    (e : FetchErr) (st2 : DOState) (evs : List Ev)
    (h : Browser.fetch env f st reqUrl = (Except.error e, st2, evs)) :
    Ev.pageClose ∉ evs ∧ Ev.contextClose ∉ evs := by
  unfold Browser.fetch Browser.launchStep at h
  cases hb : buildConfig env reqUrl with
  | none => rw [hb] at h; simp_all
  | some cfg =>
    rw [hb] at h
    obtain ⟨ka, br, ap⟩ := st
    obtain ⟨lf, gf, cf⟩ := f
    rcases br with _ | (_ | _) <;> cases lf <;> cases gf <;> cases cf <;> cases ap <;>
      simp at h <;> obtain ⟨-, -, rfl⟩ := h <;> simp [mem_ite_iff, eq_ite_iff]

/-! ## Claim theorems -/

/-- Claim C1: after every completed render `keptAliveInSeconds` is 0; every
alarm tick adds exactly 10 to it; whenever the incremented value is still
below the 60-second budget the tick sets the alarm again (10 seconds later in
the source); and at a tick where the incremented value reaches the budget the
engine handle is closed (when one was assigned) and no further alarm is set. -/
theorem keepAlive_lifecycle :
    (∀ env f st reqUrl r st2 evs,
        Browser.fetch env f st reqUrl = (Except.ok r, st2, evs) →
        st2.keptAliveInSeconds = 0) ∧
    (∀ st, ((Browser.alarm st).1).keptAliveInSeconds = st.keptAliveInSeconds + 10) ∧
    (∀ st, st.keptAliveInSeconds + 10 < KEEP_BROWSER_ALIVE_IN_SECONDS →
        ((Browser.alarm st).1).alarmPending = true ∧ (Browser.alarm st).2 = [Ev.setAlarm]) ∧
    (∀ st, KEEP_BROWSER_ALIVE_IN_SECONDS ≤ st.keptAliveInSeconds + 10 →
        ((Browser.alarm st).1).alarmPending = false ∧ Ev.setAlarm ∉ (Browser.alarm st).2 ∧
        (∀ b, st.browser = some b →
          ((Browser.alarm st).1).browser = some false ∧
          (Browser.alarm st).2 = [Ev.browserClose])) := by
  refine ⟨?_, ?_, ?_, ?_⟩
  · intro env f st reqUrl r st2 evs h
    obtain ⟨cfg, -, -, -, -, hst, -⟩ := Browser.fetch_ok env f st reqUrl r st2 evs h
    rw [hst]
  · intro st
    by_cases hlt : st.keptAliveInSeconds + 10 < KEEP_BROWSER_ALIVE_IN_SECONDS <;>
      cases hb : st.browser <;> simp [Browser.alarm, hlt, hb]
  · intro st hlt
    simp [Browser.alarm, hlt]
  · intro st hge
    have hn : ¬ (st.keptAliveInSeconds + 10 < KEEP_BROWSER_ALIVE_IN_SECONDS) := by omega
    cases hb : st.browser with
    | none => simp [Browser.alarm, hn, hb]
    | some b => simp [Browser.alarm, hn, hb]

/-- Claim C1 witness: concrete instances of each conjunct of
`keepAlive_lifecycle` (render from `st0` over `exUrl`; ticks at 20, 40 and
50 accumulated idle seconds). -/
theorem keepAlive_lifecycle_witness :
    ((⟨0, some true, true⟩ : DOState)).keptAliveInSeconds = 0 ∧
    ((Browser.alarm ⟨20, some true, false⟩).1).keptAliveInSeconds = 30 ∧
    ((Browser.alarm ⟨40, some true, false⟩).1).alarmPending = true ∧
    ((Browser.alarm ⟨50, some true, false⟩).1).alarmPending = false ∧
    (Browser.alarm ⟨50, some true, false⟩).2 = [Ev.browserClose] := by
  refine ⟨keepAlive_lifecycle.1 env0 noFaults st0 exUrl respEx ⟨0, some true, true⟩ evsEx
      (by decide), keepAlive_lifecycle.2.1 ⟨20, some true, false⟩,
    (keepAlive_lifecycle.2.2.1 ⟨40, some true, false⟩ (by decide)).1,
    (keepAlive_lifecycle.2.2.2 ⟨50, some true, false⟩ (by decide)).1,
    (keepAlive_lifecycle.2.2.2 ⟨50, some true, false⟩ (by decide)).2.2 true rfl |>.2⟩

/-- Claim C2: a completed `Browser.fetch` leaves the alarm pending; it sets
the alarm exactly once when none was pending on entry, and does not touch an
already-pending alarm (the single storage alarm slot makes more than one
pending wake-up per object impossible). -/
theorem single_pending_alarm :
    ∀ env f st reqUrl r st2 evs,
      Browser.fetch env f st reqUrl = (Except.ok r, st2, evs) →
      st2.alarmPending = true ∧
      (st.alarmPending = true → List.count Ev.setAlarm evs = 0) ∧
      (st.alarmPending = false → List.count Ev.setAlarm evs = 1) := by
  intro env f st reqUrl r st2 evs h
  obtain ⟨cfg, -, -, -, -, hst, hevs⟩ := Browser.fetch_ok env f st reqUrl r st2 evs h
  subst hevs
  refine ⟨by rw [hst], ?_, ?_⟩ <;> intro hap <;>
    by_cases h1 : st.browser = some true <;>
    by_cases h2 : (jsTruthyOpt env.CF_ACCESS_CLIENT_ID &&
      jsTruthyOpt env.CF_ACCESS_CLIENT_SECRET) = true <;>
    by_cases h3 : (cfg.format == "pdf") = true <;>
    simp [hap, h1, h2, h3, List.count_append, List.count_cons]

/-- Claim C2 witness: the fresh-state render over `exUrl` sets the alarm
exactly once. -/
theorem single_pending_alarm_witness :
    List.count Ev.setAlarm evsEx = 1 := by
  exact (single_pending_alarm env0 noFaults st0 exUrl respEx ⟨0, some true, true⟩ evsEx
    (by decide)).2.2 rfl

/-- Claim C3 (amended): the page and the isolated context are closed exactly
on successful renders — a run closes them if and only if it returns a
response, so on the error path from navigation or capture neither close
runs. -/
theorem cleanup_on_success :
    ∀ env f st reqUrl res st2 evs,
      Browser.fetch env f st reqUrl = (res, st2, evs) →
      ((∃ r, res = Except.ok r) ↔ Ev.pageClose ∈ evs) ∧
      ((∃ r, res = Except.ok r) ↔ Ev.contextClose ∈ evs) := by
  intro env f st reqUrl res st2 evs h
  cases res with
  | ok r =>
    obtain ⟨cfg, -, -, -, -, -, hevs⟩ := Browser.fetch_ok env f st reqUrl r st2 evs h
    subst hevs
    constructor <;> constructor <;> intro hx <;>
      first
      | exact ⟨r, rfl⟩
      | simp [mem_ite_iff]
  | error e =>
    obtain ⟨h1, h2⟩ := Browser.fetch_err env f st reqUrl e st2 evs h
    constructor <;> constructor <;> intro hx
    · obtain ⟨r, hr⟩ := hx; exact Except.noConfusion hr
    · exact absurd hx h1
    · obtain ⟨r, hr⟩ := hx; exact Except.noConfusion hr
    · exact absurd hx h2

/-- Claim C3 counterexample: when navigation fails (a rejected `page.goto`)
on a live session, the run ends with the navigation error and the trace has
neither `pageClose` nor `contextClose` — there is no try/finally, so cleanup
is not executed on that exit path, contrary to the claim. -/
theorem cleanup_not_guaranteed_cex :
    (Browser.fetch env0 ⟨false, true, false⟩ stConn exUrl).1 = Except.error FetchErr.gotoFailed ∧
    (Browser.fetch env0 ⟨false, true, false⟩ stConn exUrl).2.2 = [Ev.setViewport, Ev.goto] ∧
    Ev.pageClose ∉ (Browser.fetch env0 ⟨false, true, false⟩ stConn exUrl).2.2 ∧
    Ev.contextClose ∉ (Browser.fetch env0 ⟨false, true, false⟩ stConn exUrl).2.2 := by
  decide

/-- Claim C3 witness: a fault-free render over `exUrl` does close the page. -/
theorem cleanup_on_success_witness :
    Ev.pageClose ∈ (Browser.fetch env0 noFaults st0 exUrl).2.2 := by
  have h := cleanup_on_success env0 noFaults st0 exUrl
    (Browser.fetch env0 noFaults st0 exUrl).1
    (Browser.fetch env0 noFaults st0 exUrl).2.1
    (Browser.fetch env0 noFaults st0 exUrl).2.2 rfl
  exact h.1.mp ⟨respEx, by decide⟩

/-- Claim C4 (amended): when no engine handle is registered and the launch
fails, the launch error itself is caught and only logged, but the handler
then dereferences the still-unset handle and propagates that untyped error
(`FetchErr.noBrowser`, the TypeError of line 86) to the caller instead of a
typed engine-unavailable render error; no engine handle is registered
afterwards, so any later call with a working engine retries the launch. -/
theorem launch_failure_behaviour :
    ∀ env f st reqUrl, st.browser = none → f.launchFails = true →
      (matchPattern reqUrl.data).isSome = true →
      Browser.fetch env f st reqUrl =
        (Except.error FetchErr.noBrowser, { st with keptAliveInSeconds := 0 }, []) ∧
      (Browser.fetch env f st reqUrl).2.1.browser = none ∧
      (∀ f2 : Faults, f2.launchFails = false →
        Ev.launch ∈ (Browser.fetch env f2 { st with keptAliveInSeconds := 0 } reqUrl).2.2) := by
  intro env f st reqUrl hbr hlf hsome
  cases hm : matchPattern reqUrl.data with
  | none => rw [hm] at hsome; simp at hsome
  | some s =>
    have hb : buildConfig env reqUrl = some (resolveSettings env s) := by
      simp [buildConfig, hm]
    obtain ⟨ka, br, ap⟩ := st
    simp only at hbr
    subst hbr
    obtain ⟨lf, gf, cf⟩ := f
    simp only at hlf
    subst hlf
    have h1 : Browser.fetch env ⟨true, gf, cf⟩ ⟨ka, none, ap⟩ reqUrl =
        (Except.error FetchErr.noBrowser, ⟨0, none, ap⟩, []) := by
      unfold Browser.fetch Browser.launchStep
      rw [hb]
      rfl
    refine ⟨h1, by rw [h1], ?_⟩
    intro f2 hf2
    obtain ⟨lf2, gf2, cf2⟩ := f2
    simp only at hf2
    subst hf2
    unfold Browser.fetch Browser.launchStep
    rw [hb]
    cases gf2 <;> cases cf2 <;> cases ap <;> simp

/-- Claim C4 counterexample: from a fresh state, a failed launch does not
surface a typed engine-unavailable render error — the run crashes with the
modelled TypeError of dereferencing the unassigned handle
(`FetchErr.noBrowser`), leaving no handle registered. -/
theorem launch_failure_cex :
    Browser.fetch env0 ⟨true, false, false⟩ st0 exUrl =
      (Except.error FetchErr.noBrowser, ⟨0, none, false⟩, []) := by
  decide

/-- Claim C4 witness: `launch_failure_behaviour` instantiated at a fresh
state over `exUrl2`; the follow-up call with a working engine launches. -/
theorem launch_failure_behaviour_witness :
    Browser.fetch env0 ⟨true, false, false⟩ st0 exUrl2 =
      (Except.error FetchErr.noBrowser, ⟨0, none, false⟩, []) ∧
    Ev.launch ∈ (Browser.fetch env0 noFaults ⟨0, none, false⟩ exUrl2).2.2 := by
  have h := launch_failure_behaviour env0 ⟨true, false, false⟩ st0 exUrl2 rfl rfl (by decide)
  exact ⟨h.1, h.2.2 noFaults rfl⟩

/-- Claim C5 (code bug): with no query parameters at all (none captured, no
operator-configured list), the code still appends a bare question mark to the
target URL, because the JavaScript array `params` is truthy even when empty
(`params ? ... : null` always takes the first branch): the URL for
`exUrl2` is `https://example.com/bar?`, not the documented
`https://example.com/bar`. -/
theorem empty_params_url_bug :
    buildConfig env0 exUrl2 =
      some ⟨"https://example.com", "/bar", "https://example.com/bar?",
            1200, 630, 1, "png", 604800, []⟩ ∧
    ((buildConfig env0 exUrl2).map RenderConfig.url) ≠ some "https://example.com/bar" := by
  decide

/-- Claim C6 (amended): for a request URL that does not match the anchored
pattern, the null-match error (`FetchErr.nullMatch`, the TypeError of reading
`.groups` of `null`) propagates out of the gateway unhandled — no client
error response is constructed — while the Browser object itself has already
been invoked; the rendering engine is never launched or used (empty effect
trace), and cache and session state are unchanged. -/
theorem parse_failure_behaviour :
    ∀ cache env f st reqUrl,
      cacheMatch cache reqUrl = none →
      matchPattern reqUrl.data = none →
      fetch cache env f st reqUrl = ⟨Except.error FetchErr.nullMatch, cache, st, true, []⟩ := by
  intro cache env f st reqUrl hc hm
  have hbf : Browser.fetch env f st reqUrl = (Except.error FetchErr.nullMatch, st, []) := by
    unfold Browser.fetch
    simp [buildConfig, hm]
  unfold fetch
  rw [hc, hbf]

/-- Claim C6 counterexample: on `badUrl` the gateway outcome is the
propagated null-match error, not any constructed (client error) response,
and the Browser object was invoked before parsing happened. -/
theorem parse_error_cex :
    (fetch [] env0 noFaults st0 badUrl).response = Except.error FetchErr.nullMatch ∧
    (fetch [] env0 noFaults st0 badUrl).sessionInvoked = true ∧
    (fetch [] env0 noFaults st0 badUrl).evs = [] := by
  decide

/-- Claim C6 witness: `parse_failure_behaviour` instantiated at `badUrl` with
an empty cache and a fresh state. -/
theorem parse_failure_behaviour_witness :
    fetch [] env0 noFaults st0 badUrl = ⟨Except.error FetchErr.nullMatch, [], st0, true, []⟩ := by
  exact parse_failure_behaviour [] env0 noFaults st0 badUrl rfl (by decide)

/-- Claim C7: when the Browser object propagates an error, the gateway
outcome is that error (at the platform boundary an unhandled rejection
surfaces as a server error) and the cache is unchanged; conversely the cache
changes only by storing the successful response under the request URL. -/
theorem render_error_not_cached :
    ∀ cache env f st reqUrl,
      (∀ e, (fetch cache env f st reqUrl).response = Except.error e →
        (fetch cache env f st reqUrl).cache = cache) ∧
      ((fetch cache env f st reqUrl).cache ≠ cache →
        ∃ r, (fetch cache env f st reqUrl).response = Except.ok r ∧
          (fetch cache env f st reqUrl).cache = (reqUrl, r) :: cache) := by
  intro cache env f st reqUrl
  unfold fetch
  cases hc : cacheMatch cache reqUrl with
  | some r => simp
  | none =>
    cases hbf : Browser.fetch env f st reqUrl with
    | mk res rest =>
      obtain ⟨st2, evs⟩ := rest
      cases res <;> simp

/-- Claim C7 witness: the failing request over `badUrl` leaves the empty
cache empty. -/
theorem render_error_not_cached_witness :
    (fetch [] env0 noFaults st0 badUrl).cache = [] := by
  exact (render_error_not_cached [] env0 noFaults st0 badUrl).1 FetchErr.nullMatch (by decide)

/-- Claim C8: on a cache hit the gateway returns the cached response
unchanged, the cache and session state are untouched, the Browser object is
not invoked and no effect happens — parsing and rendering are bypassed. -/
theorem cache_hit_short_circuit :
    ∀ cache env f st reqUrl r,
      cacheMatch cache reqUrl = some r →
      fetch cache env f st reqUrl = ⟨Except.ok r, cache, st, false, []⟩ := by
  intro cache env f st reqUrl r hc
  unfold fetch
  rw [hc]

/-- Claim C8 witness: a pre-populated entry for `exUrl2` is returned as is
without invoking the Browser object. -/
theorem cache_hit_short_circuit_witness :
    fetch [(exUrl2, respPng)] env0 noFaults st0 exUrl2 =
      ⟨Except.ok respPng, [(exUrl2, respPng)], st0, false, []⟩ := by
  exact cache_hit_short_circuit [(exUrl2, respPng)] env0 noFaults st0 exUrl2 respPng (by decide)

/-- Claim C9: every omitted optional field falls back to its documented
default (format `png`, width 1200, height 630, scale 1, and the cache TTL is
always 604800 seconds), and the worked example parses exactly as documented:
`exUrl` yields target URL `https://example.com/foo/bar?x=1`, width 600,
height 400, scale 2, format `pdf`, TTL 604800. -/
theorem defaults_and_example :
    (∀ env s, s.format = none → (resolveSettings env s).format = "png") ∧
    (∀ env s, s.width = none → (resolveSettings env s).width = 1200) ∧
    (∀ env s, s.height = none → (resolveSettings env s).height = 630) ∧
    (∀ env s, s.scale = none → (resolveSettings env s).scale = 1) ∧
    (∀ env s, (resolveSettings env s).maxage = 604800) ∧
    buildConfig env0 exUrl =
      some ⟨"https://example.com", "/foo/bar", "https://example.com/foo/bar?x=1",
            600, 400, 2, "pdf", 604800, ["x=1"]⟩ := by
  refine ⟨?_, ?_, ?_, ?_, ?_, by decide⟩ <;> intro env s <;>
    first
    | (intro h; simp [resolveSettings, h, defaults])
    | simp [resolveSettings, defaults]

/-- Claim C9 witness: the defaults applied to the captured groups of
`exUrl2` (every optional group absent). -/
theorem defaults_and_example_witness :
    (resolveSettings env0 ⟨"https://example.com", none, none, "/bar", none, none, none⟩).format
        = "png" ∧
    (resolveSettings env0 ⟨"https://example.com", none, none, "/bar", none, none, none⟩).width
        = 1200 ∧
    (resolveSettings env0 ⟨"https://example.com", none, none, "/bar", none, none, none⟩).height
        = 630 ∧
    (resolveSettings env0 ⟨"https://example.com", none, none, "/bar", none, none, none⟩).scale
        = 1 ∧
    (resolveSettings env0 ⟨"https://example.com", none, none, "/bar", none, none, none⟩).maxage
        = 604800 := by
  exact ⟨defaults_and_example.1 env0 _ rfl, defaults_and_example.2.1 env0 _ rfl,
    defaults_and_example.2.2.1 env0 _ rfl, defaults_and_example.2.2.2.1 env0 _ rfl,
    defaults_and_example.2.2.2.2.1 env0 _⟩

/-- Claim C10: on every completed render the forwarded authentication header
pair is applied to the page if and only if both configuration values are set
(JavaScript-truthy, i.e. defined and nonempty); with only one of the two
configured, no extra header is applied at all. -/
theorem auth_headers_iff :
    ∀ env f st reqUrl r st2 evs,
      Browser.fetch env f st reqUrl = (Except.ok r, st2, evs) →
      (Ev.setHeaders ∈ evs ↔
        (jsTruthyOpt env.CF_ACCESS_CLIENT_ID = true ∧
         jsTruthyOpt env.CF_ACCESS_CLIENT_SECRET = true)) := by
  intro env f st reqUrl r st2 evs h
  obtain ⟨cfg, -, -, -, -, -, hevs⟩ := Browser.fetch_ok env f st reqUrl r st2 evs h
  subst hevs
  constructor
  · intro hm
    simp [mem_ite_iff, eq_ite_iff] at hm
    exact hm
  · intro hc
    simp [mem_ite_iff, hc]

/-- Claim C10 witness: with both bindings configured (`envAuth`), the render
over `exUrl` applies the header pair. -/
theorem auth_headers_iff_witness :
    Ev.setHeaders ∈ evsAuth := by
  exact (auth_headers_iff envAuth noFaults st0 exUrl respEx ⟨0, some true, true⟩ evsAuth
    (by decide)).mpr (by decide)

end Screenshot
